import Mathlib

/-!
# Verification of the two-phase scraping pipeline (`src/scraper.py`)

Shallow embedding of the scraper: site configuration, page tasks, the
fetcher, the batch runner built on `asyncio.gather`, link extraction,
post parsing, and the `main` orchestration.

Modelling conventions:
* The HTML selector engine (BeautifulSoup) is an external collaborator;
  a parsed document is modelled as a finite map from selector strings to
  the list of matching nodes, in document order.  `soup.select` looks the
  selector up; `soup.select_one` is its first element (BeautifulSoup
  returns the first match in document order, and a `Tag` is always
  truthy — `Tag.__bool__` returns `True` — so `if not title_tag` is
  exactly a `None` test on `select_one`).
* A node carries its text content and its attribute list; `get_text`
  with `strip=True` is modelled as trimming the text, and `tag.get(k)`
  as an association-list lookup returning `Option String`.
* The response body bytes are only ever consumed by the selector engine,
  so the byte string is identified with its parsed document; the empty
  byte string `b""` parses to the document with no matches, `emptyHtml`.
* The network is an oracle mapping a URL to a transport-level outcome;
  `fetch_html` applies aiohttp's `raise_for_status` (raises exactly when
  the response status is `>= 400`) to the oracle's answer.
* `asyncio.gather` without `return_exceptions` is modelled with an
  explicit completion order: coroutines complete one by one in the given
  order; the first failure propagates to the awaiting `main`, which
  re-raises, and `asyncio.run` cancels the still-pending coroutines, so
  their `self.html = ...` assignment never executes.
-/

/-- A node of a parsed document: its text content and its attributes. -/
structure Node where
  text : String
  attrs : List (String × String)
deriving Repr, DecidableEq

/-- A parsed document, abstracted to the selector-engine capability:
for each selector string, the list of matching nodes in document order. -/
abbrev Html : Type := List (String × List Node)

/-- `soup.select(selector)`: all matching nodes, in document order. -/
def select (html : Html) (selector : String) : List Node :=
  (List.lookup selector html).getD []

/-- `soup.select_one(selector)`: the first matching node, if any. -/
def select_one (html : Html) (selector : String) : Option Node :=
  (select html selector).head?

/-- The document the empty byte string `b""` parses to: no selector
matches any node. -/
def emptyHtml : Html := ([] : List (String × List Node))

/-- Python `str` applied to `tag.get("href")`: the attribute value when
present, and the literal text `"None"` for Python's `None` when the
attribute is missing. -/
def pyStr (o : Option String) : String :=
  match o with
  | some s => s
  | none => "None"

/-- `get_text(strip=True)`: the node's text content, trimmed. -/
def get_text_strip (n : Node) : String := n.text.trim

/-- `tag.get(key)`: attribute lookup, `None` when absent. -/
def Node.get (n : Node) (key : String) : Option String :=
  List.lookup key n.attrs

/-- `SiteConfig` (the spec's SiteProfile): one site's configuration. -/
structure SiteConfig where
  base_url : String
  extension : String
  link_selector : String
  title_selector : String
  body_selector : String
deriving Repr, DecidableEq

/-- `PageTask` (the spec's FetchTask): a unit of work pairing a URL and
its owning site with a slot for the fetched document, created empty. -/
structure PageTask where
  site : SiteConfig
  url : String
  html : Html := emptyHtml
deriving Repr, DecidableEq

/-- The parsed record `parse_post_html` returns (a `{"title", "body",
"url"}` dict in the source). -/
structure PostRecord where
  title : String
  body : String
  url : String
deriving Repr, DecidableEq

/-- `extract_links(html, link_selector, base_url)`: one URL per node
matched by the selector, formed by concatenating `base_url` with
`str(tag.get("href"))`. -/
def extract_links (html : Html) (link_selector : String) (base_url : String) :
    List String :=
  (select html link_selector).map (fun tag => base_url ++ pyStr (tag.get "href"))

/-- `parse_post_html(html, title_selector, body_selector, url)`: fails
(raises `ValueError`) when `select_one(title_selector)` is `None`;
otherwise returns the record of the trimmed title text, the body texts
joined with a blank line, and the url. -/
def parse_post_html (html : Html) (title_selector : String)
    (body_selector : String) (url : String) : Except String PostRecord :=
  match select_one html title_selector with
  | none => .error "Failed to extract title - CSS selector likely wrong"
  | some title_tag =>
      .ok { title := get_text_strip title_tag
            body := String.intercalate "\n\n"
              ((select html body_selector).map get_text_strip)
            url := url }

/-- `generate_post_tasks(tasks)`: for each task, extract the links of its
document and append one fresh `PageTask` per link, sharing the site. -/
def generate_post_tasks (tasks : List PageTask) : List PageTask :=
  tasks.foldl
    (fun post_tasks task =>
      post_tasks ++
        (extract_links task.html task.site.link_selector task.site.base_url).map
          (fun link => { site := task.site, url := link, html := emptyHtml }))
    []

/-- `parse_all_posts(tasks)`: parse every task's document in task order;
the first `ValueError` propagates out. -/
def parse_all_posts (tasks : List PageTask) : Except String (List PostRecord) :=
  match tasks with
  | [] => .ok []
  | task :: rest => do
      let post ← parse_post_html task.html task.site.title_selector
        task.site.body_selector task.url
      let more ← parse_all_posts rest
      .ok (post :: more)

/-- `list_all_sites(site_count)`: the mock database call returning
`site_count` copies of the hard-coded formulanews configuration. -/
def list_all_sites (site_count : Nat) : List SiteConfig :=
  (List.range site_count).map (fun _ =>
    { base_url := "https://formulanews.ge"
      extension := "/Category/all"
      link_selector := "div.main__new__slider__desc > a"
      title_selector := "h1.news__inner__desc__title"
      body_selector := "section.article-content > p" })


/-! ## Network model and batch runner -/

/-- The transport-level outcome of one HTTP GET: either a response with
a status code and a body, or a transport error (timeout, connection
refused, DNS failure) with its cause. -/
inductive TransportResult where
  | response (status : Nat) (body : Html)
  | transportError (cause : String)
deriving Repr, DecidableEq

/-- The network, as seen by the run: each URL maps to a fixed
transport-level outcome. -/
def Oracle : Type := String → TransportResult

/-- The structured error `fetch_html` fails with: `aiohttp` raises
`ClientResponseError` / `ClientError`, which carries the request URL and
the cause (status or OS error). -/
structure FetchError where
  url : String
  cause : String
deriving Repr, DecidableEq

/-- Whether `response.raise_for_status()` raises: aiohttp raises
`ClientResponseError` exactly when the response status is `>= 400`. -/
def raise_for_status_raises (status : Nat) : Bool :=
  400 ≤ status

/-- The total request timeout, in seconds, of the `aiohttp.ClientSession`
created by `assign_html_to_tasks`: the source calls
`aiohttp.ClientSession()` with no `timeout` argument, so aiohttp's
default client timeout of 300 seconds total applies. -/
def sessionTimeoutSeconds : Nat := 300

/-- `fetch_html(session, url)`: GET the url; a transport error
propagates as a client error, `raise_for_status` rejects statuses
`>= 400`, and otherwise the full response body is returned. -/
def fetch_html (oracle : Oracle) (url : String) : Except FetchError Html :=
  match oracle url with
  | .transportError cause => .error { url := url, cause := cause }
  | .response status body =>
      if raise_for_status_raises status then
        .error { url := url, cause := "HTTP status " ++ toString status }
      else
        .ok body

/-- `PageTask.assign_html`: `self.html = await fetch_html(session,
self.url)`.  The assignment executes only after the fetch returns; on
failure the exception propagates before any assignment, so the task is
returned unchanged alongside the error. -/
def PageTask.assign_html (oracle : Oracle) (task : PageTask) :
    PageTask × Option FetchError :=
  match fetch_html oracle task.url with
  | .error e => (task, some e)
  | .ok body => ({ task with html := body }, none)

/-- `assign_html_to_tasks(tasks)`, i.e. `asyncio.gather` over
`task.assign_html` coroutines, without `return_exceptions`.  `order` is
the completion order of the coroutines (scheduling is outside the
program's control): each completing coroutine stores its body into its
task; the first failing one propagates its `FetchError` to the awaiting
`main`, which re-raises, and `asyncio.run` then cancels the still
pending coroutines, so no further `html` assignment executes.  Indices
outside the task list correspond to no coroutine and are skipped. -/
def gatherFetch (oracle : Oracle) :
    List Nat → List PageTask → List PageTask × Option FetchError
  | [], tasks => (tasks, none)
  | i :: rest, tasks =>
      match tasks[i]? with
      | none => gatherFetch oracle rest tasks
      | some task =>
          match task.assign_html oracle with
          | (_, some e) => (tasks, some e)
          | (task_fetched, none) =>
              gatherFetch oracle rest (tasks.set i task_fetched)

/-- The error a run of `main` terminates with: an uncaught `FetchError`
from a batch, or the `ValueError` message from `parse_post_html`. -/
inductive PipelineError where
  | fetch (e : FetchError)
  | parse (msg : String)
deriving Repr, DecidableEq

/-- The listing-page tasks `main` builds: one task per site returned by
`list_all_sites`, with `url = base_url + extension` and an empty
document slot. -/
def listingTasks (site_count : Nat) : List PageTask :=
  (list_all_sites site_count).map (fun site =>
    { site := site, url := site.base_url ++ site.extension, html := emptyHtml })

/-- `main()`: build listing tasks, run the listing batch, expand into
post tasks, run the post batch, parse all posts.  `.ok records` means
the run reached the final write of `output/result.json` with exactly
these records; `.error` means the run terminated with that exception
before the output file was opened, so no output file is written.
`order1`, `order2` are the completion orders of the two batches. -/
def pyMain (oracle : Oracle) (order1 order2 : List Nat) (site_count : Nat) :
    Except PipelineError (List PostRecord) :=
  match gatherFetch oracle order1 (listingTasks site_count) with
  | (_, some e) => .error (.fetch e)
  | (list_page_tasks, none) =>
      match gatherFetch oracle order2 (generate_post_tasks list_page_tasks) with
      | (_, some e) => .error (.fetch e)
      | (post_tasks, none) =>
          match parse_all_posts post_tasks with
          | .error msg => .error (.parse msg)
          | .ok parsed_posts => .ok parsed_posts
/-! ## Concrete sample inputs -/

/-- A link node with `href="/a"` and padded text. -/
def sampleNodeA : Node := { text := "  Post A  ", attrs := [("href", "/a")] }

/-- A link node with `href="/b"`. -/
def sampleNodeB : Node := { text := "Post B", attrs := [("href", "/b")] }

/-- An anchor-like node with no `href` attribute at all. -/
def sampleNodeNoHref : Node := { text := "no link", attrs := [] }

/-- A listing document: the selector `"a"` matches three nodes. -/
def sampleListing : Html := [("a", [sampleNodeA, sampleNodeB, sampleNodeNoHref])]

/-- A post document: one title node, two body paragraphs. -/
def samplePost : Html :=
  [("h1", [{ text := " Title ", attrs := [] }]),
   ("p", [{ text := " first ", attrs := [] }, { text := "second", attrs := [] }])]

/-- The site configuration used by the concrete witnesses. -/
def sampleSite : SiteConfig :=
  { base_url := "https://s", extension := "/list", link_selector := "a"
    title_selector := "h1", body_selector := "p" }

/-- A fresh task for the sample site's listing page. -/
def sampleTask : PageTask :=
  { site := sampleSite, url := "https://s/list", html := emptyHtml }

/-- The sample listing task after its fetch completed. -/
def sampleTaskFetched : PageTask :=
  { site := sampleSite, url := "https://s/list", html := sampleListing }

/-- A network on which every request dies with a transport error. -/
def oracleRefused : Oracle := fun _ => .transportError "connection refused"

/-- A network on which every request returns `304 Not Modified` with an
empty body: a non-2xx response that `raise_for_status` accepts. -/
def oracle304 : Oracle := fun _ => .response 304 emptyHtml

/-- A network on which every request succeeds with status 200 and a body
in which no selector matches anything. -/
def oracleEmptyPage : Oracle := fun _ => .response 200 emptyHtml

/-! ## Helper lemmas -/

/-- `generate_post_tasks`'s left fold with an accumulated append. -/
theorem generate_post_tasks_foldl (tasks : List PageTask) (init : List PageTask) :
    tasks.foldl
      (fun post_tasks task =>
        post_tasks ++
          (extract_links task.html task.site.link_selector task.site.base_url).map
            (fun link => { site := task.site, url := link, html := emptyHtml }))
      init
    = init ++ tasks.flatMap (fun task =>
        (extract_links task.html task.site.link_selector task.site.base_url).map
          (fun link => { site := task.site, url := link, html := emptyHtml })) := by
  induction tasks generalizing init with
  | nil => simp
  | cons t rest ih => simp [List.foldl_cons, ih, List.append_assoc]

/-- `generate_post_tasks` as a flat map over the tasks. -/
theorem generate_post_tasks_eq_flatMap (tasks : List PageTask) :
    generate_post_tasks tasks
    = tasks.flatMap (fun task =>
        (extract_links task.html task.site.link_selector task.site.base_url).map
          (fun link => { site := task.site, url := link, html := emptyHtml })) := by
  simpa [generate_post_tasks] using generate_post_tasks_foldl tasks []

/-- Every selector matches nothing in the empty document. -/
theorem select_emptyHtml (selector : String) : select emptyHtml selector = [] := by
  simp [select, emptyHtml, List.lookup]

/-- Unfolding `gatherFetch` when the completion order names no task. -/
theorem gatherFetch_cons_none (oracle : Oracle) (i : Nat) (rest : List Nat)
    (tasks : List PageTask) (hidx : tasks[i]? = none) :
    gatherFetch oracle (i :: rest) tasks = gatherFetch oracle rest tasks := by
  simp [gatherFetch, hidx]

/-- Unfolding `gatherFetch` when the next completing fetch fails. -/
theorem gatherFetch_cons_error (oracle : Oracle) (i : Nat) (rest : List Nat)
    (tasks : List PageTask) (task : PageTask) (e : FetchError)
    (hidx : tasks[i]? = some task)
    (hfetch : fetch_html oracle task.url = .error e) :
    gatherFetch oracle (i :: rest) tasks = (tasks, some e) := by
  simp [gatherFetch, hidx, PageTask.assign_html, hfetch]

/-- Unfolding `gatherFetch` when the next completing fetch succeeds. -/
theorem gatherFetch_cons_ok (oracle : Oracle) (i : Nat) (rest : List Nat)
    (tasks : List PageTask) (task : PageTask) (body : Html)
    (hidx : tasks[i]? = some task)
    (hfetch : fetch_html oracle task.url = .ok body) :
    gatherFetch oracle (i :: rest) tasks
      = gatherFetch oracle rest (tasks.set i { task with html := body }) := by
  simp [gatherFetch, hidx, PageTask.assign_html, hfetch]

/-- A property of tasks closed under storing a successfully fetched body
holds for every task after the batch runs. -/
theorem gatherFetch_invariant (oracle : Oracle) (P : PageTask → Prop)
    (hstep : ∀ t b, P t → fetch_html oracle t.url = .ok b →
      P { t with html := b }) :
    ∀ (order : List Nat) (tasks : List PageTask), (∀ t ∈ tasks, P t) →
      ∀ t ∈ (gatherFetch oracle order tasks).1, P t := by
  intro order
  induction order with
  | nil => intro tasks h t ht; exact h t (by simpa [gatherFetch] using ht)
  | cons i rest ih =>
      intro tasks h t ht
      cases hidx : tasks[i]? with
      | none => exact ih tasks h t (by rwa [gatherFetch_cons_none oracle i rest tasks hidx] at ht)
      | some task =>
          cases hfetch : fetch_html oracle task.url with
          | error e =>
              rw [gatherFetch_cons_error oracle i rest tasks task e hidx hfetch] at ht
              exact h t ht
          | ok body =>
              rw [gatherFetch_cons_ok oracle i rest tasks task body hidx hfetch] at ht
              refine ih _ ?_ t ht
              intro t' ht'
              rcases List.mem_or_eq_of_mem_set ht' with hmem | rfl
              · exact h t' hmem
              · exact hstep task body (h task (List.getElem?_mem hidx)) hfetch

/-- If every task's fetch succeeds (a property of its URL alone), the
batch completes without an error. -/
theorem gatherFetch_ok (oracle : Oracle) :
    ∀ (order : List Nat) (tasks : List PageTask),
      (∀ t ∈ tasks, (fetch_html oracle t.url).isOk = true) →
      (gatherFetch oracle order tasks).2 = none := by
  intro order
  induction order with
  | nil => intro tasks _; simp [gatherFetch]
  | cons i rest ih =>
      intro tasks h
      cases hidx : tasks[i]? with
      | none => rw [gatherFetch_cons_none oracle i rest tasks hidx]; exact ih tasks h
      | some task =>
          have hok := h task (List.getElem?_mem hidx)
          cases hfetch : fetch_html oracle task.url with
          | error e => rw [hfetch] at hok; simp [Except.isOk, Except.toBool] at hok
          | ok body =>
              rw [gatherFetch_cons_ok oracle i rest tasks task body hidx hfetch]
              refine ih _ ?_
              intro t' ht'
              rcases List.mem_or_eq_of_mem_set ht' with hmem | rfl
              · exact h t' hmem
              · simpa using hok

/-- The batch over an empty task list does nothing. -/
theorem gatherFetch_nil (oracle : Oracle) (order : List Nat) :
    gatherFetch oracle order [] = ([], none) := by
  induction order with
  | nil => rfl
  | cons i rest ih => rw [gatherFetch]; simpa using ih

/-- An error reported by `fetch_html` carries the requested URL. -/
theorem fetch_html_error_url (oracle : Oracle) (url : String) (e : FetchError)
    (h : fetch_html oracle url = .error e) : e.url = url := by
  unfold fetch_html at h
  split at h
  · cases h; rfl
  · split at h
    · cases h; rfl
    · cases h

/-- If some coroutine of the completion order holds a task whose fetch
fails, the batch reports an error. -/
theorem gatherFetch_fails (oracle : Oracle) :
    ∀ (order : List Nat) (tasks : List PageTask) (i : Nat) (t : PageTask),
      i ∈ order → tasks[i]? = some t → (fetch_html oracle t.url).isOk = false →
      ((gatherFetch oracle order tasks).2).isSome = true := by
  intro order
  induction order with
  | nil => intro tasks i t hi; exact absurd hi (List.not_mem_nil i)
  | cons j rest ih =>
      intro tasks i t hi hidx hfail
      cases hjdx : tasks[j]? with
      | none =>
          rw [gatherFetch_cons_none oracle j rest tasks hjdx]
          have hij : i ≠ j := by
            intro h; rw [h, hjdx] at hidx; cases hidx
          have hmem : i ∈ rest := by
            rcases List.mem_cons.mp hi with h | h
            · exact absurd h hij
            · exact h
          exact ih tasks i t hmem hidx hfail
      | some tj =>
          cases hfetch : fetch_html oracle tj.url with
          | error e =>
              rw [gatherFetch_cons_error oracle j rest tasks tj e hjdx hfetch]
              rfl
          | ok body =>
              rw [gatherFetch_cons_ok oracle j rest tasks tj body hjdx hfetch]
              by_cases hij : i = j
              · subst hij
                rw [hidx] at hjdx
                cases hjdx
                rw [hfetch] at hfail
                simp [Except.isOk, Except.toBool] at hfail
              · have hmem : i ∈ rest := by
                  rcases List.mem_cons.mp hi with h | h
                  · exact absurd h hij
                  · exact h
                have hidx' : (tasks.set j { tj with html := body })[i]? = some t := by
                  rw [List.getElem?_set_ne (by omega : j ≠ i)]
                  exact hidx
                exact ih _ i t hmem hidx' hfail

/-- The error a batch aborts with is a genuine fetch failure of its own
URL. -/
theorem gatherFetch_error_src (oracle : Oracle) :
    ∀ (order : List Nat) (tasks : List PageTask) (e : FetchError),
      (gatherFetch oracle order tasks).2 = some e →
      fetch_html oracle e.url = .error e := by
  intro order
  induction order with
  | nil => intro tasks e h; simp [gatherFetch] at h
  | cons j rest ih =>
      intro tasks e h
      cases hjdx : tasks[j]? with
      | none =>
          rw [gatherFetch_cons_none oracle j rest tasks hjdx] at h
          exact ih tasks e h
      | some tj =>
          cases hfetch : fetch_html oracle tj.url with
          | error e' =>
              rw [gatherFetch_cons_error oracle j rest tasks tj e' hjdx hfetch] at h
              cases h
              rw [fetch_html_error_url oracle tj.url e hfetch]
              exact hfetch
          | ok body =>
              rw [gatherFetch_cons_ok oracle j rest tasks tj body hjdx hfetch] at h
              exact ih _ e h

/-! ## Claims -/

/-- C4: `extract_links` returns exactly one URL string per node matched
by the selector, in document order; a node's URL is `base_url ++ href`
by verbatim string concatenation; duplicate hrefs yield duplicate URLs
(the map is pointwise, with no deduplication); zero matched nodes yield
the empty list rather than a failure. -/
theorem extract_links_one_url_per_node (html : Html)
    (link_selector base_url : String) :
    (extract_links html link_selector base_url).length
        = (select html link_selector).length
    ∧ (∀ (i : Nat) (node : Node) (href : String),
        (select html link_selector)[i]? = some node →
        node.get "href" = some href →
        (extract_links html link_selector base_url)[i]? = some (base_url ++ href))
    ∧ (select html link_selector = [] →
        extract_links html link_selector base_url = []) := by
  refine ⟨by simp [extract_links], ?_, ?_⟩
  · intro i node href hnode hhref
    simp [extract_links, List.getElem?_map, hnode, pyStr, hhref]
  · intro h
    simp [extract_links, h]

/-- C4 at a concrete input: the second matched node of the sample
listing yields the second URL `"https://s" ++ "/b"`. -/
theorem extract_links_one_url_per_node_witness :
    (extract_links sampleListing "a" "https://s")[1]? = some "https://s/b" :=
  (extract_links_one_url_per_node sampleListing "a" "https://s").2.1
    1 sampleNodeB "/b" (by rfl) (by rfl)

/-- C9: a matched node with no `href` attribute is neither skipped nor
an error: `tag.get("href")` is Python `None` and `str(None)` is the
text `"None"`, so its URL is `base_url ++ "None"`, and the output still
has one URL per matched node. -/
theorem extract_links_none_href (html : Html) (link_selector base_url : String)
    (i : Nat) (node : Node)
    (hnode : (select html link_selector)[i]? = some node)
    (hhref : node.get "href" = none) :
    (extract_links html link_selector base_url)[i]? = some (base_url ++ "None")
    ∧ (extract_links html link_selector base_url).length
        = (select html link_selector).length := by
  constructor
  · simp [extract_links, List.getElem?_map, hnode, pyStr, hhref]
  · simp [extract_links]

/-- C9 at a concrete input: the third sample node has no `href` and is
turned into the URL `"https://s" ++ "None"`. -/
theorem extract_links_none_href_witness :
    (extract_links sampleListing "a" "https://s")[2]? = some "https://sNone"
    ∧ (extract_links sampleListing "a" "https://s").length
        = (select sampleListing "a").length :=
  extract_links_none_href sampleListing "a" "https://s" 2 sampleNodeNoHref
    (by rfl) (by rfl)

/-- C3: `parse_post_html` fails — with the `ValueError` whose message is
`"Failed to extract title - CSS selector likely wrong"` — exactly when
the title selector matches zero nodes; a body selector matching zero
nodes is not an error and produces the empty-string body. -/
theorem parse_post_title_error_iff (html : Html)
    (title_selector body_selector url : String) :
    (parse_post_html html title_selector body_selector url
        = .error "Failed to extract title - CSS selector likely wrong"
      ↔ select html title_selector = [])
    ∧ (∀ (node : Node) (rest : List Node),
        select html title_selector = node :: rest →
        select html body_selector = [] →
        parse_post_html html title_selector body_selector url
          = .ok { title := get_text_strip node, body := "", url := url }) := by
  constructor
  · cases hsel : select html title_selector with
    | nil => simp [parse_post_html, select_one, hsel]
    | cons node rest => simp [parse_post_html, select_one, hsel]
  · intro node rest hsel hbody
    simp [parse_post_html, select_one, hsel, hbody]
    rfl

/-- C3 at a concrete input: the sample post parses with selector `"q"`
matching no body node, giving an empty body and no error; and with the
unmatched title selector `"h2"` it fails with the title error. -/
theorem parse_post_title_error_iff_witness :
    parse_post_html samplePost "h1" "q" "u"
      = .ok { title := get_text_strip { text := " Title ", attrs := [] }
              body := "", url := "u" }
    ∧ parse_post_html samplePost "h2" "p" "u"
      = .error "Failed to extract title - CSS selector likely wrong" := by
  constructor
  · exact (parse_post_title_error_iff samplePost "h1" "q" "u").2
      { text := " Title ", attrs := [] } [] (by rfl) (by rfl)
  · exact (parse_post_title_error_iff samplePost "h2" "p" "u").1.mpr (by rfl)

/-- C6: when the title selector matches at least one node,
`parse_post_html` returns the record whose title is the trimmed text of
the first matched node, whose body is the trimmed texts of all
body-selector matches joined with the blank-line separator `"\n\n"`,
and whose url equals the input url. -/
theorem parse_post_success (html : Html)
    (title_selector body_selector url : String) (node : Node)
    (rest : List Node) (hsel : select html title_selector = node :: rest) :
    parse_post_html html title_selector body_selector url
      = .ok { title := get_text_strip node
              body := String.intercalate "\n\n"
                ((select html body_selector).map get_text_strip)
              url := url }
    ∧ get_text_strip node = node.text.trim := by
  constructor
  · simp [parse_post_html, select_one, hsel]
  · rfl

/-- C6 at a concrete input: parsing the sample post with both selectors
matching. -/
theorem parse_post_success_witness :
    parse_post_html samplePost "h1" "p" "u"
      = .ok { title := get_text_strip { text := " Title ", attrs := [] }
              body := String.intercalate "\n\n"
                ((select samplePost "p").map get_text_strip)
              url := "u" } :=
  (parse_post_success samplePost "h1" "p" "u"
    { text := " Title ", attrs := [] } [] (by rfl)).1

/-- C7: `generate_post_tasks` builds exactly one post task per link of
each completed listing task, in order — the concatenation, in task
order, of one task per extracted link — each new task carrying the same
site as the listing task it came from and an empty document slot. -/
theorem generate_post_tasks_one_per_link (tasks : List PageTask) :
    generate_post_tasks tasks
      = tasks.flatMap (fun task =>
          (extract_links task.html task.site.link_selector task.site.base_url).map
            (fun link => { site := task.site, url := link, html := emptyHtml }))
    ∧ ∀ p ∈ generate_post_tasks tasks, p.html = emptyHtml := by
  refine ⟨generate_post_tasks_eq_flatMap tasks, ?_⟩
  intro p hp
  rw [generate_post_tasks_eq_flatMap] at hp
  rcases List.mem_flatMap.mp hp with ⟨task, -, hmem⟩
  rcases List.mem_map.mp hmem with ⟨link, -, rfl⟩
  rfl

/-- C7 at a concrete input: the fetched sample listing expands into one
post task per extracted link, and a concrete expanded task has an empty
document slot. -/
theorem generate_post_tasks_one_per_link_witness :
    generate_post_tasks [sampleTaskFetched]
      = [sampleTaskFetched].flatMap (fun task =>
          (extract_links task.html task.site.link_selector task.site.base_url).map
            (fun link => { site := task.site, url := link, html := emptyHtml }))
    ∧ PageTask.html { site := sampleSite, url := "https://s/a", html := emptyHtml }
        = emptyHtml := by
  constructor
  · exact (generate_post_tasks_one_per_link [sampleTaskFetched]).1
  · exact (generate_post_tasks_one_per_link [sampleTaskFetched]).2
      (⟨sampleSite, "https://s/a", emptyHtml⟩ : PageTask) (by decide)

/-- C10: `assign_html` is atomic on error: if the fetch of the task's
URL fails, the exception propagates before the assignment
`self.html = ...` executes, so the task — in particular its `html`
field, still the empty value it was created with — is unchanged. -/
theorem assign_html_atomic_on_error (oracle : Oracle) (task : PageTask)
    (e : FetchError) (hfail : fetch_html oracle task.url = .error e) :
    task.assign_html oracle = (task, some e) := by
  simp [PageTask.assign_html, hfail]

/-- C10 at a concrete input: a fresh task whose fetch is refused keeps
its empty document. -/
theorem assign_html_atomic_on_error_witness :
    sampleTask.assign_html oracleRefused
      = (sampleTask, some { url := "https://s/list", cause := "connection refused" }) :=
  assign_html_atomic_on_error oracleRefused sampleTask
    { url := "https://s/list", cause := "connection refused" } (by rfl)

/-- C5 counterexample: a `304 Not Modified` response is not 2xx, yet
`fetch_html` succeeds on it, because `raise_for_status` only raises at
status 400 and above; and the session's request timeout is aiohttp's
300-second default, not 15 seconds (the code sets no timeout). -/
theorem fetch_html_non2xx_counterexample :
    (¬ (200 ≤ 304 ∧ 304 < 300))
    ∧ fetch_html oracle304 "https://s/list" = .ok emptyHtml
    ∧ sessionTimeoutSeconds ≠ 15 := by
  refine ⟨by decide, by rfl, by decide⟩

/-- C5 (amended): `fetch_html` issues an HTTP GET with the session's
default timeout of 300 seconds (no 15-second timeout is configured); on
a response status of 400 or above, or on any transport-level error, it
fails with a structured error carrying the url and the cause; on any
other response it returns the full response body. -/
theorem fetch_html_amended (oracle : Oracle) (url : String) :
    sessionTimeoutSeconds = 300
    ∧ (∀ cause, oracle url = .transportError cause →
        fetch_html oracle url = .error { url := url, cause := cause })
    ∧ (∀ status body, oracle url = .response status body → 400 ≤ status →
        fetch_html oracle url
          = .error { url := url, cause := "HTTP status " ++ toString status })
    ∧ (∀ status body, oracle url = .response status body → status < 400 →
        fetch_html oracle url = .ok body) := by
  refine ⟨rfl, ?_, ?_, ?_⟩
  · intro cause h
    simp [fetch_html, h]
  · intro status body h hs
    simp [fetch_html, h, raise_for_status_raises, hs]
  · intro status body h hs
    simp [fetch_html, h, raise_for_status_raises]
    omega

/-- C5 (amended) at a concrete input: a refused connection yields the
structured error with the url and cause. -/
theorem fetch_html_amended_witness :
    fetch_html oracleRefused "https://s/list"
      = .error { url := "https://s/list", cause := "connection refused" } :=
  (fetch_html_amended oracleRefused "https://s/list").2.1 "connection refused" rfl

/-- Every listing task targets the hard-coded formulanews listing URL,
uses its link selector, and starts with an empty document. -/
theorem listingTasks_mem (site_count : Nat) (t : PageTask)
    (ht : t ∈ listingTasks site_count) :
    t.url = "https://formulanews.ge/Category/all"
    ∧ t.site.link_selector = "div.main__new__slider__desc > a"
    ∧ t.html = emptyHtml := by
  rcases List.mem_map.mp ht with ⟨site, hsite, rfl⟩
  rcases List.mem_map.mp hsite with ⟨k, -, rfl⟩
  exact ⟨rfl, rfl, rfl⟩

/-- C8: if every listing fetch succeeds and the link selector matches
zero nodes on the returned listing page, the Expand stage yields the
empty task set, the post-fetch phase runs on it and succeeds, and the
run's output is the empty sequence of records. -/
theorem empty_listing_empty_output (oracle : Oracle)
    (order1 order2 : List Nat) (site_count : Nat) (d : Html)
    (hfetch : fetch_html oracle "https://formulanews.ge/Category/all" = .ok d)
    (hnolinks : select d "div.main__new__slider__desc > a" = []) :
    (∀ ts, gatherFetch oracle order1 (listingTasks site_count) = (ts, none) →
        generate_post_tasks ts = [])
    ∧ pyMain oracle order1 order2 site_count = .ok [] := by
  have hP : ∀ t ∈ (gatherFetch oracle order1 (listingTasks site_count)).1,
      t.url = "https://formulanews.ge/Category/all"
      ∧ t.site.link_selector = "div.main__new__slider__desc > a"
      ∧ select t.html "div.main__new__slider__desc > a" = [] := by
    refine gatherFetch_invariant oracle _ ?_ order1 _ ?_
    · intro t b ht hok
      refine ⟨ht.1, ht.2.1, ?_⟩
      rw [ht.1] at hok
      rw [hfetch] at hok
      injection hok with hdb
      rw [← hdb]
      exact hnolinks
    · intro t ht
      rcases listingTasks_mem site_count t ht with ⟨h1, h2, h3⟩
      exact ⟨h1, h2, by rw [h3]; exact select_emptyHtml _⟩
  have hgen : ∀ ts, gatherFetch oracle order1 (listingTasks site_count) = (ts, none) →
      generate_post_tasks ts = [] := by
    intro ts hts
    rw [generate_post_tasks_eq_flatMap]
    refine List.flatMap_eq_nil_iff.mpr ?_
    intro t ht
    have h := hP t (by rw [hts]; exact ht)
    simp [extract_links, h.2.1, h.2.2]
  refine ⟨hgen, ?_⟩
  have herr : (gatherFetch oracle order1 (listingTasks site_count)).2 = none := by
    refine gatherFetch_ok oracle order1 _ ?_
    intro t ht
    rw [(listingTasks_mem site_count t ht).1, hfetch]
    rfl
  obtain ⟨ts, hts⟩ : ∃ ts,
      gatherFetch oracle order1 (listingTasks site_count) = (ts, none) :=
    ⟨(gatherFetch oracle order1 (listingTasks site_count)).1, by rw [← herr]⟩
  simp [pyMain, hts, hgen ts hts, gatherFetch_nil, parse_all_posts]

/-- C8 at a concrete input: one site, a network whose every response is
an empty page: the run succeeds with the empty output. -/
theorem empty_listing_empty_output_witness :
    pyMain oracleEmptyPage [0] [] 1 = .ok [] :=
  (empty_listing_empty_output oracleEmptyPage [0] [] 1 emptyHtml
    (by rfl) (by rfl)).2

/-- C1: a batch one of whose tasks' fetches fails (its coroutine being
in the completion order) reports a `FetchError`; the reported error is a
genuine fetch failure of its own URL; every task of the aborted batch
either still holds its empty initial document (tasks pending at failure
time are never populated) or holds exactly its successfully fetched
body; and a run writes its output records only when neither of its two
batches reported any error — so a run with a failing batch writes no
output file. -/
theorem batch_failure_aborts_run (oracle : Oracle) (order : List Nat)
    (tasks : List PageTask)
    (hinit : ∀ t ∈ tasks, t.html = emptyHtml)
    (hcover : ∀ i, i < tasks.length → i ∈ order)
    (hfail : ∃ (i : Nat) (t : PageTask), tasks[i]? = some t
      ∧ (fetch_html oracle t.url).isOk = false) :
    ((gatherFetch oracle order tasks).2).isSome = true
    ∧ (∀ e, (gatherFetch oracle order tasks).2 = some e →
        fetch_html oracle e.url = .error e)
    ∧ (∀ t ∈ (gatherFetch oracle order tasks).1,
        t.html = emptyHtml ∨ fetch_html oracle t.url = .ok t.html)
    ∧ (∀ (o1 o2 : List Nat) (n : Nat) (records : List PostRecord),
        pyMain oracle o1 o2 n = .ok records →
        (gatherFetch oracle o1 (listingTasks n)).2 = none
        ∧ (gatherFetch oracle o2
            (generate_post_tasks (gatherFetch oracle o1 (listingTasks n)).1)).2
          = none) := by
  refine ⟨?_, ?_, ?_, ?_⟩
  · rcases hfail with ⟨i, t, hidx, hbad⟩
    have hlt : i < tasks.length := by
      by_contra hge
      rw [List.getElem?_eq_none (Nat.le_of_not_lt hge)] at hidx
      cases hidx
    exact gatherFetch_fails oracle order tasks i t (hcover i hlt) hidx hbad
  · intro e he
    exact gatherFetch_error_src oracle order tasks e he
  · refine gatherFetch_invariant oracle _ ?_ order tasks ?_
    · intro t b _ hok
      right
      exact hok
    · intro t ht
      left
      exact hinit t ht
  · intro o1 o2 n records h
    unfold pyMain at h
    cases hg1 : gatherFetch oracle o1 (listingTasks n) with
    | mk ts1 err1 =>
        rw [hg1] at h
        cases err1 with
        | some e => simp at h
        | none =>
            refine ⟨rfl, ?_⟩
            simp only [] at h
            cases hg2 : gatherFetch oracle o2 (generate_post_tasks ts1) with
            | mk ts2 err2 =>
                rw [hg2] at h
                cases err2 with
                | some e => simp at h
                | none => rfl

/-- C1 at a concrete input: one fresh task, a refusing network, the
coroutine completing first: the batch aborts with an error. -/
theorem batch_failure_aborts_run_witness :
    ((gatherFetch oracleRefused [0] [sampleTask]).2).isSome = true :=
  (batch_failure_aborts_run oracleRefused [0] [sampleTask]
    (by intro t ht; rw [List.mem_singleton.mp ht]; rfl)
    (by intro i hi; rw [Nat.lt_one_iff.mp hi]; exact List.mem_singleton_self 0)
    ⟨0, sampleTask, by rfl, by rfl⟩).1
